import Mathlib

/-
Verification development for the DebtTracker repository.

The embedding models the derived-state recomputation and the financial
projection code of the repository. Money columns (SQLite REAL) are modelled
as exact rationals; the two-decimal display rounding applied by the Python
round builtin on floating-point values is presentation-only and is not
modelled. Nullable integer id columns are modelled as Option Int; the GUI
layer coerces missing ids to 0 (pandas fillna(0)), which is modelled by
Option.getD 0. Dates are stored as ISO strings and compared with string
order, which agrees with numeric order of date ordinals, modelled as Int.
-/

namespace DebtTracker

/-- Row of the Payments table (debt_manager_db_init schema): DebtID and
AccountID are nullable foreign keys, Amount is REAL NOT NULL. -/
structure Payment where
  PaymentID : Int
  DebtID : Option Int
  AccountID : Option Int
  Amount : ℚ
  PaymentDate : Int
  Category : String
deriving DecidableEq, Repr, Inhabited

/-- Row of the Revenue table: AllocatedTo is a nullable id, AllocationType a
text tag such as the literal Account. -/
structure RevenueRec where
  RevenueID : Int
  Amount : ℚ
  DateReceived : Int
  AllocatedTo : Option Int
  AllocationType : String
deriving DecidableEq, Repr, Inhabited

/-- Row of the Accounts table. -/
structure Account where
  AccountID : Int
  AccountType : String
  StartingBalance : ℚ
  Balance : ℚ
  PreviousBalance : ℚ
  Status : String
deriving DecidableEq, Repr, Inhabited

/-- Row of the Debts table. MinimumPayment, SnowballPayment and InterestRate
are nullable REAL columns that the code guards with the Python idiom
x or 0.0, modelled as Option with getD 0. -/
structure Debt where
  DebtID : Int
  OriginalAmount : ℚ
  Amount : ℚ
  AmountPaid : ℚ
  MinimumPayment : Option ℚ
  SnowballPayment : Option ℚ
  InterestRate : Option ℚ
  Status : String
deriving DecidableEq, Repr, Inhabited

/-- Row of the Goals table. The schema has no linked-account columns at all. -/
structure Goal where
  GoalID : Int
  TargetAmount : ℚ
  CurrentAmount : ℚ
  Status : String
deriving DecidableEq, Repr, Inhabited

/-- In-memory snapshot of the ledger tables, as read by get_table_data. -/
structure LedgerState where
  debts : List Debt
  accounts : List Account
  payments : List Payment
  revenue : List RevenueRec
  goals : List Goal
deriving DecidableEq, Repr, Inhabited

/-- Row of the projection report (one dictionary appended to projections). -/
structure Snapshot where
  Year : Nat
  DebtRemaining : ℚ
  Savings : ℚ
  NetWorth : ℚ
deriving DecidableEq, Repr, Inhabited

/-! GUI recalculation pass, from debt_manager_gui.py,
update_account_balances_and_debt_amounts. -/

/-- Sum of payment amounts grouped by DebtID, with null DebtID coerced to 0
by pandas fillna, as in the groupby of debt_manager_gui lines 198 to 201. -/
def gui_debt_payments_sum (payments : List Payment) (debtId : Int) : ℚ :=
  (payments.filter (fun p => p.DebtID.getD 0 == debtId)).foldl
    (fun s p => s + p.Amount) 0

/-- One debt row of the GUI recomputation, debt_manager_gui lines 198 to 214:
AmountPaid is the payment sum, Amount is clamped at zero, and Status is
overwritten by the nested conditional of line 211. -/
def gui_update_debt_row (payments : List Payment) (d : Debt) : Debt :=
  let totalPaid := gui_debt_payments_sum payments d.DebtID
  let amount := max 0 (d.OriginalAmount - totalPaid)
  let status :=
    if amount ≤ 1 / 100 then "Paid Off"
    else if d.Status = "Paid" then "Paid" else "Open"
  { d with AmountPaid := totalPaid, Amount := amount, Status := status }

/-- Revenue allocated to the account, debt_manager_gui lines 237 to 239:
rows whose coerced AllocatedTo equals the account id and whose
AllocationType is the literal Account. -/
def gui_account_deposits (revenue : List RevenueRec) (accountId : Int) : ℚ :=
  (revenue.filter
      (fun r => r.AllocatedTo.getD 0 == accountId && r.AllocationType == "Account")).foldl
    (fun s r => s + r.Amount) 0

/-- Payments sourced from the account, debt_manager_gui lines 241 to 243:
rows whose coerced AccountID equals the account id. -/
def gui_account_withdrawals (payments : List Payment) (accountId : Int) : ℚ :=
  (payments.filter (fun p => p.AccountID.getD 0 == accountId)).foldl
    (fun s p => s + p.Amount) 0

/-- One account row of the GUI recomputation, debt_manager_gui lines 226 to
246: PreviousBalance receives the stored Balance, then Balance is set to
StartingBalance plus deposits minus withdrawals. -/
def gui_update_account_row (revenue : List RevenueRec) (payments : List Payment)
    (a : Account) : Account :=
  { a with
    PreviousBalance := a.Balance
    Balance := a.StartingBalance + gui_account_deposits revenue a.AccountID
      - gui_account_withdrawals payments a.AccountID }

/-- The whole GUI pass update_account_balances_and_debt_amounts: it rewrites
every debt row and every account row from the payment and revenue ledger. -/
def gui_update_account_balances_and_debt_amounts (s : LedgerState) : LedgerState :=
  { s with
    debts := s.debts.map (gui_update_debt_row s.payments)
    accounts := s.accounts.map (gui_update_account_row s.revenue s.payments) }

/-! Database-manager recalculation pass, from debt_manager_db_manager.py. -/

/-- SQL sum of payment amounts with DebtID equal to the given debt id; a SQL
null DebtID never matches, and the second UPDATE statement writes 0 when no
payment rows exist, which coincides with the empty sum. From
update_debt_amounts_and_payments lines 257 to 272. -/
def db_payments_for_debt_sum (payments : List Payment) (debtId : Int) : ℚ :=
  (payments.filter (fun p => p.DebtID == some debtId)).foldl
    (fun s p => s + p.Amount) 0

/-- One debt row of update_debt_amounts_and_payments: AmountPaid is the
payment sum and Amount is OriginalAmount minus AmountPaid, with no clamp. -/
def db_update_debt_row (payments : List Payment) (d : Debt) : Debt :=
  let paid := db_payments_for_debt_sum payments d.DebtID
  { d with AmountPaid := paid, Amount := d.OriginalAmount - paid }

/-- One account row of update_account_balances, lines 447 to 459 of
debt_manager_db_manager: deposits are revenue rows allocated to the account,
withdrawals are payment rows whose DebtID equals the account id, and the new
balance is deposits minus withdrawals with no starting-balance term. -/
def db_update_account_row (revenue : List RevenueRec) (payments : List Payment)
    (a : Account) : Account :=
  let deposits :=
    (revenue.filter
        (fun r => r.AllocatedTo == some a.AccountID && r.AllocationType == "Account")).foldl
      (fun s r => s + r.Amount) 0
  let withdrawals :=
    (payments.filter (fun p => p.DebtID == some a.AccountID)).foldl
      (fun s p => s + p.Amount) 0
  { a with Balance := deposits - withdrawals }

/-- Sum of payment amounts with Category equal to the literal Debt Payment
and PaymentDate up to today, from update_goal_progress lines 496 to 500. -/
def db_debt_payment_progress (payments : List Payment) (today : Int) : ℚ :=
  (payments.filter
      (fun p => p.Category == "Debt Payment" && decide (p.PaymentDate ≤ today))).foldl
    (fun s p => s + p.Amount) 0

/-- One goal row of update_goal_progress, lines 489 to 509: the progress sum
does not depend on the goal at all, and the status conditional checks the
target first and the zero case second. -/
def db_update_goal_row (payments : List Payment) (today : Int) (g : Goal) : Goal :=
  let progress := db_debt_payment_progress payments today
  let status :=
    if progress ≥ g.TargetAmount then "Completed"
    else if progress = 0 then "Planned" else "In Progress"
  { g with CurrentAmount := progress, Status := status }

/-- The whole update_goal_progress pass over the Goals table. -/
def db_update_goal_progress (payments : List Payment) (today : Int)
    (goals : List Goal) : List Goal :=
  goals.map (db_update_goal_row payments today)

/-- Combined recalculation pass used for the idempotence claim: the GUI
balance and debt pass followed by the database goal-progress pass, on one
ledger snapshot with a fixed value of today. -/
def full_recalc_pass (today : Int) (s : LedgerState) : LedgerState :=
  let s1 := gui_update_account_balances_and_debt_amounts s
  { s1 with goals := db_update_goal_progress s1.payments today s1.goals }

/-! Financial projection of debt_manager_db_manager.py,
generate_financial_projection, lines 520 to 663. -/

/-- Active-debt filter of the SQL totals and of the pandas filter: status
different from Paid Off and from Closed. -/
def db_is_active_debt (d : Debt) : Bool :=
  d.Status != "Paid Off" && d.Status != "Closed"

/-- Total debt of the projection, the SQL sum of Amount over active debts. -/
def db_total_active_debt (debts : List Debt) : ℚ :=
  ((debts.filter db_is_active_debt).map Debt.Amount).sum

/-- One iteration of the inner loop over sorted_debts, lines 628 to 644: the
state is the pair of temp_total_debt and temp_snowball_pool. The whole
projection horizon is collapsed into min of the debt amount and the monthly
payment times the number of months; no month-by-month state and no interest
accrual exists, and the InterestRate column is never read. -/
def db_snowball_step (months : ℚ) (st : ℚ × ℚ) (d : Debt) : ℚ × ℚ :=
  let debt_amount := d.Amount
  let min_payment := d.MinimumPayment.getD 0
  let monthly_payment_for_this_debt := min_payment + st.2
  let amount_paid_on_this_debt :=
    min debt_amount (monthly_payment_for_this_debt * months)
  let pool :=
    if amount_paid_on_this_debt ≥ debt_amount ∧ min_payment > 0 then
      st.2 + min_payment
    else st.2
  (st.1 - amount_paid_on_this_debt, pool)

/-- One appended projection row, lines 625 to 659: the remaining debt is
clamped at 0, savings grow by five percent per year plus twenty percent of
annual income per year, and net worth is savings minus the clamped debt.
The two-decimal display rounding of the Python round builtin is
presentation-only and not modelled. -/
def db_project_year (total_debt total_savings annual_income : ℚ)
    (sorted_debts : List Debt) (year : Nat) : Snapshot :=
  let months : ℚ := (year : ℚ) * 12
  let final := sorted_debts.foldl (db_snowball_step months) (total_debt, 0)
  let remaining_debt_after_projection := max 0 final.1
  let projected_savings :=
    total_savings * (1 + 5 / 100) ^ year + annual_income * (2 / 10) * (year : ℚ)
  { Year := year
    DebtRemaining := remaining_debt_after_projection
    Savings := projected_savings
    NetWorth := projected_savings - remaining_debt_after_projection }

/-- The whole report, lines 553 to 663. The outer loop runs over the four
hardcoded horizons 3, 5, 7 and 10 years; inside it the source iterates over
the rows of the active-debt frame and appends one identical snapshot per
active debt row and year. The sorted_debts argument stands for the pandas
sort of the active debts by Amount ascending, whose order on ties the
source leaves to the sorting backend. -/
def db_generate_financial_projection (debts sorted_debts : List Debt)
    (total_savings annual_income : ℚ) : List Snapshot :=
  let total_debt := db_total_active_debt debts
  ([3, 5, 7, 10] : List Nat).foldl
    (fun acc year =>
      acc ++ sorted_debts.map (fun _ =>
        db_project_year total_debt total_savings annual_income sorted_debts year))
    []

/-! Financial projection of debt_manager_gui.py, generate_financial_projection,
lines 266 to 358. -/

/-- State of the monthly loop of the GUI projection. -/
structure GuiProjState where
  current_debt : ℚ
  current_savings : ℚ
  debt_rate : ℚ
  sav_rate : ℚ
  projections : List Snapshot
deriving DecidableEq, Repr, Inhabited

/-- Monthly income estimate of debt_manager_gui line 313, with the hardcoded
fallback of 2000 when no revenue data is positive. -/
def gui_monthly_income (annual_income next_projected_income_sum : ℚ) : ℚ :=
  if annual_income > 0 ∨ next_projected_income_sum > 0 then
    (annual_income + next_projected_income_sum * 12) / 12
  else 2000

/-- One month of the GUI projection loop, lines 326 to 352: pay the lesser of
the whole debt and the debt allocation, grow savings by the hardcoded five
percent annual rate, and at each twelfth month append a snapshot and, when
the debt fell to at most one cent, move the debt allocation into the
savings allocation. -/
def gui_month_step (available : ℚ) (month : Nat) (st : GuiProjState) : GuiProjState :=
  let payment_to_debt := min st.current_debt (available * st.debt_rate)
  let contribution := available * st.sav_rate
  let debt1 := st.current_debt - payment_to_debt
  let savings1 := (st.current_savings + contribution) * (1 + 5 / 100 / 12)
  if month % 12 == 0 then
    let snap : Snapshot :=
      { Year := month / 12
        DebtRemaining := max 0 debt1
        Savings := savings1
        NetWorth := savings1 - debt1 }
    if debt1 ≤ 1 / 100 then
      { current_debt := 0
        current_savings := savings1
        debt_rate := 0
        sav_rate := st.sav_rate + st.debt_rate
        projections := st.projections ++ [snap] }
    else
      { st with
        current_debt := debt1
        current_savings := savings1
        projections := st.projections ++ [snap] }
  else
    { st with current_debt := debt1, current_savings := savings1 }

/-- The whole GUI projection, lines 300 to 352: 120 simulated months with the
hardcoded allocation rates of thirty percent to debt and fifteen percent to
savings; monthly expenses are fixed from the initial rates before the loop. -/
def gui_generate_financial_projection (annual_income next_projected_income_sum
    total_debt total_savings : ℚ) : List Snapshot :=
  let income := gui_monthly_income annual_income next_projected_income_sum
  let monthly_expenses := income * (1 - 30 / 100 - 15 / 100)
  let available := income - monthly_expenses
  let init : GuiProjState :=
    { current_debt := total_debt
      current_savings := total_savings
      debt_rate := 30 / 100
      sav_rate := 15 / 100
      projections := [] }
  ((List.range 120).foldl (fun st i => gui_month_step available (i + 1) st)
      init).projections

/-! Monthly payoff state machine of the specification, used only to compare
the claimed monthly behavior against the code. -/

/-- Modelled from the spec: section 4.4 gives each simulated debt a remaining
amount, an annual interest rate in percent, and a minimum payment. The
source has no such per-month state. -/
structure SpecSimDebt where
  remaining : ℚ
  annualRate : ℚ
  minimumPayment : ℚ
deriving DecidableEq, Repr, Inhabited

/-- Modelled from the spec: one simulated month of section 4.4. The head debt
accrues interest at the monthly rate annualRate / 12 / 100, then pays its
minimum plus the snowball pool with a floor of 0; when it reaches 0 it is
removed and its minimum joins the pool. Every other debt accrues interest
and pays only its own minimum. -/
def spec_month_step : ℚ × List SpecSimDebt → ℚ × List SpecSimDebt
  | (pool, []) => (pool, [])
  | (pool, d0 :: rest) =>
    let afterInterest := d0.remaining * (1 + d0.annualRate / 12 / 100)
    let afterPayment := max 0 (afterInterest - (d0.minimumPayment + pool))
    let rest1 := rest.map (fun d =>
      let r1 := max 0 (d.remaining * (1 + d.annualRate / 12 / 100) - d.minimumPayment)
      { d with remaining := r1 })
    if afterPayment = 0 then (pool + d0.minimumPayment, rest1)
    else (pool, { d0 with remaining := afterPayment } :: rest1)

/-- Modelled from the spec: iterate the monthly state machine. -/
def spec_simulate : Nat → ℚ × List SpecSimDebt → ℚ × List SpecSimDebt
  | 0, st => st
  | n + 1, st => spec_simulate n (spec_month_step st)

/-- Total remaining debt of the simulated state. -/
def spec_total_remaining (st : ℚ × List SpecSimDebt) : ℚ :=
  (st.2.map SpecSimDebt.remaining).sum

/-- Forget the transient PreviousBalance field, used to state which derived
fields the recomputation pass reproduces run after run. -/
def erase_previous_balance (a : Account) : Account :=
  { a with PreviousBalance := 0 }

/-- Replace the InterestRate column of a debt row, used to state that the
projection never reads it. -/
def debt_with_interest_rate (r : Option ℚ) (d : Debt) : Debt :=
  { d with InterestRate := r }

/-! Theorems. -/

/-- A left fold that adds a projection of each element equals the starting
value plus the sum of the projections. -/
theorem foldl_add_eq_add_sum {α : Type} (f : α → ℚ) (l : List α) (x : ℚ) :
    l.foldl (fun s a => s + f a) x = x + (l.map f).sum := by
  induction l generalizing x with
  | nil => simp
  | cons a tl ih => rw [List.foldl_cons, ih, List.map_cons, List.sum_cons]; ring

/-- C1: the claim asserts that the balance recalculation always produces
startingBalance plus allocated revenue minus payments, 1300 in the example
scenario; the update_account_balances recalculation of
debt_manager_db_manager omits the starting balance and produces 300 on the
exact example instance (startingBalance 1000, one revenue of 500 allocated
to the account, one payment of 200 from it). -/
theorem C1_counterexample :
    (db_update_account_row
        [{ RevenueID := 1, Amount := 500, DateReceived := 0,
           AllocatedTo := some 1, AllocationType := "Account" }]
        [{ PaymentID := 1, DebtID := some 1, AccountID := some 1,
           Amount := 200, PaymentDate := 0, Category := "Debt Payment" }]
        { AccountID := 1, AccountType := "Checking", StartingBalance := 1000,
          Balance := 0, PreviousBalance := 0, Status := "Open" }).Balance = 300
    ∧ (300 : ℚ) ≠ 1300 := by
  constructor
  · norm_num [db_update_account_row, List.filter]
  · norm_num

/-- C1 amended: the GUI recalculation produces startingBalance plus the full
amounts of revenue rows allocated to the account (AllocationType Account,
no percentage weighting exists in the code) minus payments whose source
AccountID is the account, which yields 1300 on the example scenario; the
db-manager recalculation instead produces allocated revenue minus payments
whose DebtID equals the account id, with no startingBalance term. -/
theorem C1_amended_balance_formulas :
    (∀ (revenue : List RevenueRec) (payments : List Payment) (a : Account),
      (gui_update_account_row revenue payments a).Balance
        = a.StartingBalance
          + ((revenue.filter (fun r =>
                r.AllocatedTo.getD 0 == a.AccountID
                  && r.AllocationType == "Account")).map RevenueRec.Amount).sum
          - ((payments.filter (fun p => p.AccountID.getD 0 == a.AccountID)).map
              Payment.Amount).sum
      ∧ (db_update_account_row revenue payments a).Balance
        = ((revenue.filter (fun r =>
              r.AllocatedTo == some a.AccountID
                && r.AllocationType == "Account")).map RevenueRec.Amount).sum
          - ((payments.filter (fun p => p.DebtID == some a.AccountID)).map
              Payment.Amount).sum)
    ∧ (gui_update_account_row
        [{ RevenueID := 1, Amount := 500, DateReceived := 0,
           AllocatedTo := some 1, AllocationType := "Account" }]
        [{ PaymentID := 1, DebtID := some 1, AccountID := some 1,
           Amount := 200, PaymentDate := 0, Category := "Debt Payment" }]
        { AccountID := 1, AccountType := "Checking", StartingBalance := 1000,
          Balance := 0, PreviousBalance := 0, Status := "Open" }).Balance = 1300 := by
  refine ⟨fun revenue payments a => ⟨?_, ?_⟩, ?_⟩
  · simp [gui_update_account_row, gui_account_deposits, gui_account_withdrawals,
      foldl_add_eq_add_sum]
  · simp [db_update_account_row, foldl_add_eq_add_sum]
  · norm_num [gui_update_account_row, gui_account_deposits,
      gui_account_withdrawals, List.filter]

/-- C2: the claim asserts that after the debt recalculation the remaining
amount equals max of 0 and originalAmount minus amountPaid; the
update_debt_amounts_and_payments pass of debt_manager_db_manager does not
clamp, and on a debt of original amount 100 with a payment of 150 it
writes the negative remaining amount -50. -/
theorem C2_counterexample :
    (db_update_debt_row
        [{ PaymentID := 1, DebtID := some 1, AccountID := some 1,
           Amount := 150, PaymentDate := 0, Category := "Debt Payment" }]
        { DebtID := 1, OriginalAmount := 100, Amount := 100, AmountPaid := 0,
          MinimumPayment := some 0, SnowballPayment := some 0,
          InterestRate := some 0, Status := "Open" }).Amount = -50
    ∧ ((-50 : ℚ) ≠ max 0 (100 - 150)) := by
  constructor
  · norm_num [db_update_debt_row, db_payments_for_debt_sum, List.filter]
  · norm_num [max_def]

/-- C2 amended: both recalculations write amountPaid as the sum of the
payments linked to the debt; the GUI pass clamps the remaining amount at 0
(so overpayment yields 0, never an error), while the db-manager pass writes
originalAmount minus amountPaid with no clamp and can go negative. -/
theorem C2_amended_debt_recalculation :
    ∀ (payments : List Payment) (d : Debt),
      (gui_update_debt_row payments d).AmountPaid
        = ((payments.filter (fun p => p.DebtID.getD 0 == d.DebtID)).map
            Payment.Amount).sum
      ∧ (gui_update_debt_row payments d).Amount
        = max 0 (d.OriginalAmount - (gui_update_debt_row payments d).AmountPaid)
      ∧ 0 ≤ (gui_update_debt_row payments d).Amount
      ∧ (db_update_debt_row payments d).AmountPaid
        = ((payments.filter (fun p => p.DebtID == some d.DebtID)).map
            Payment.Amount).sum
      ∧ (db_update_debt_row payments d).Amount
        = d.OriginalAmount - (db_update_debt_row payments d).AmountPaid := by
  intro payments d
  refine ⟨?_, ?_, ?_, ?_, ?_⟩
  · simp [gui_update_debt_row, gui_debt_payments_sum, foldl_add_eq_add_sum]
  · simp [gui_update_debt_row]
  · simp [gui_update_debt_row]
  · simp [db_update_debt_row, db_payments_for_debt_sum, foldl_add_eq_add_sum]
  · simp [db_update_debt_row]

/-- C5: the claim asserts that goal progress is the sum of linked-account
balances and that a goal with no linked accounts gets currentAmount 0 and
status Unfunded; the Goals schema has no account links at all, and on a
goal (trivially without linked accounts) with one Debt Payment of 100 the
update_goal_progress pass writes currentAmount 100 and status In Progress. -/
theorem C5_counterexample :
    (db_update_goal_row
        [{ PaymentID := 1, DebtID := some 1, AccountID := none,
           Amount := 100, PaymentDate := 0, Category := "Debt Payment" }] 0
        { GoalID := 1, TargetAmount := 1000, CurrentAmount := 0,
          Status := "Planned" }).CurrentAmount = 100
    ∧ (100 : ℚ) ≠ 0
    ∧ (db_update_goal_row
        [{ PaymentID := 1, DebtID := some 1, AccountID := none,
           Amount := 100, PaymentDate := 0, Category := "Debt Payment" }] 0
        { GoalID := 1, TargetAmount := 1000, CurrentAmount := 0,
          Status := "Planned" }).Status = "In Progress"
    ∧ "In Progress" ≠ "Unfunded" := by
  refine ⟨?_, by norm_num, ?_, by decide⟩
  · norm_num [db_update_goal_row, db_debt_payment_progress, List.filter]
  · norm_num [db_update_goal_row, db_debt_payment_progress, List.filter]

/-- C5 amended: the goal progress pass ignores accounts entirely: it writes
to every goal the same currentAmount, the sum of all payment amounts with
category Debt Payment dated on or before today, and a status drawn from
Completed, Planned and In Progress, never Unfunded. -/
theorem C5_amended_goal_progress :
    ∀ (payments : List Payment) (today : Int) (g g2 : Goal),
      (db_update_goal_row payments today g).CurrentAmount
        = ((payments.filter (fun p =>
              p.Category == "Debt Payment" && decide (p.PaymentDate ≤ today))).map
            Payment.Amount).sum
      ∧ (db_update_goal_row payments today g).CurrentAmount
        = (db_update_goal_row payments today g2).CurrentAmount
      ∧ ((db_update_goal_row payments today g).Status = "Completed"
          ∨ (db_update_goal_row payments today g).Status = "Planned"
          ∨ (db_update_goal_row payments today g).Status = "In Progress") := by
  intro payments today g g2
  refine ⟨?_, ?_, ?_⟩
  · simp [db_update_goal_row, db_debt_payment_progress, foldl_add_eq_add_sum]
  · simp [db_update_goal_row]
  · simp only [db_update_goal_row]
    split
    · exact Or.inl rfl
    · split
      · exact Or.inr (Or.inl rfl)
      · exact Or.inr (Or.inr rfl)

/-- C9: after one run of update_goal_progress every goal carries the same
CurrentAmount, the sum of all Debt Payment amounts dated on or before
today, independent of the goal (the schema links no accounts to goals), and
the stored status is Completed when that sum reaches the target, Planned
when the sum is 0, and In Progress otherwise, with the target check taking
precedence. -/
theorem C9_goal_progress_uniform
    (payments : List Payment) (today : Int) (goals : List Goal) :
    ∀ g1 ∈ db_update_goal_progress payments today goals,
      g1.CurrentAmount
        = ((payments.filter (fun p =>
              p.Category == "Debt Payment" && decide (p.PaymentDate ≤ today))).map
            Payment.Amount).sum
      ∧ g1.Status
        = (if g1.TargetAmount ≤ g1.CurrentAmount then "Completed"
           else if g1.CurrentAmount = 0 then "Planned" else "In Progress") := by
  intro g1 hg1
  simp only [db_update_goal_progress, List.mem_map] at hg1
  obtain ⟨g, _, rfl⟩ := hg1
  constructor
  · simp [db_update_goal_row, db_debt_payment_progress, foldl_add_eq_add_sum]
  · simp only [db_update_goal_row, ge_iff_le]

/-- Witness for C9 at a concrete input: one payment of 100 with category
Debt Payment and a goal with target 50 comes back with CurrentAmount 100
and status Completed. -/
theorem C9_goal_progress_uniform_witness :
    ({ GoalID := 1, TargetAmount := 50, CurrentAmount := 100,
       Status := "Completed" } : Goal).CurrentAmount
      = ((([{ PaymentID := 1, DebtID := some 1, AccountID := none,
              Amount := 100, PaymentDate := 0,
              Category := "Debt Payment" }] : List Payment).filter (fun p =>
            p.Category == "Debt Payment" && decide (p.PaymentDate ≤ (0 : Int)))).map
          Payment.Amount).sum
    ∧ ({ GoalID := 1, TargetAmount := 50, CurrentAmount := 100,
         Status := "Completed" } : Goal).Status
      = (if ({ GoalID := 1, TargetAmount := 50, CurrentAmount := 100,
               Status := "Completed" } : Goal).TargetAmount
            ≤ ({ GoalID := 1, TargetAmount := 50, CurrentAmount := 100,
                 Status := "Completed" } : Goal).CurrentAmount then "Completed"
         else if ({ GoalID := 1, TargetAmount := 50, CurrentAmount := 100,
                    Status := "Completed" } : Goal).CurrentAmount = 0 then "Planned"
         else "In Progress") :=
  C9_goal_progress_uniform
    [{ PaymentID := 1, DebtID := some 1, AccountID := none, Amount := 100,
       PaymentDate := 0, Category := "Debt Payment" }] 0
    [{ GoalID := 1, TargetAmount := 50, CurrentAmount := 7, Status := "Planned" }]
    { GoalID := 1, TargetAmount := 50, CurrentAmount := 100, Status := "Completed" }
    (by norm_num [db_update_goal_progress, db_update_goal_row,
      db_debt_payment_progress, List.filter])

/-- C10: the GUI recalculation pass overwrites the stored status of every
debt from the freshly recomputed remaining amount: at most one cent
remaining gives Paid Off, otherwise a prior Paid status is kept, and any
other prior status, Closed and Defaulted included, is reset to Open. -/
theorem C10_debt_status_overwrite :
    ∀ (payments : List Payment) (d : Debt),
      (gui_update_debt_row payments d).Amount
        = max 0 (d.OriginalAmount - gui_debt_payments_sum payments d.DebtID)
      ∧ ((gui_update_debt_row payments d).Amount ≤ 1 / 100 →
          (gui_update_debt_row payments d).Status = "Paid Off")
      ∧ (¬ (gui_update_debt_row payments d).Amount ≤ 1 / 100 →
          d.Status = "Paid" → (gui_update_debt_row payments d).Status = "Paid")
      ∧ (¬ (gui_update_debt_row payments d).Amount ≤ 1 / 100 →
          d.Status ≠ "Paid" → (gui_update_debt_row payments d).Status = "Open") := by
  intro payments d
  refine ⟨by simp [gui_update_debt_row], ?_, ?_, ?_⟩
  · intro h
    simp only [gui_update_debt_row] at h ⊢
    rw [if_pos h]
  · intro h hp
    simp only [gui_update_debt_row] at h ⊢
    rw [if_neg h, if_pos hp]
  · intro h hp
    simp only [gui_update_debt_row] at h ⊢
    rw [if_neg h, if_neg hp]

/-- Witness for C10 at a concrete input: a debt previously marked Defaulted
with original amount 100 and no payments is reset to Open. -/
theorem C10_debt_status_overwrite_witness :
    (gui_update_debt_row []
      { DebtID := 1, OriginalAmount := 100, Amount := 100, AmountPaid := 0,
        MinimumPayment := some 0, SnowballPayment := some 0,
        InterestRate := some 0, Status := "Defaulted" }).Status = "Open" :=
  (C10_debt_status_overwrite []
    { DebtID := 1, OriginalAmount := 100, Amount := 100, AmountPaid := 0,
      MinimumPayment := some 0, SnowballPayment := some 0,
      InterestRate := some 0, Status := "Defaulted" }).2.2.2
    (by norm_num [gui_update_debt_row, gui_debt_payments_sum, max_def])
    (by decide)

/-- Recomputing a debt row twice equals recomputing it once: the inputs of
the recomputation (DebtID, OriginalAmount) are not rewritten, and the
status conditional is stable on its own output. -/
theorem gui_update_debt_row_stable (payments : List Payment) (d : Debt) :
    gui_update_debt_row payments (gui_update_debt_row payments d)
      = gui_update_debt_row payments d := by
  simp only [gui_update_debt_row]
  split_ifs <;> simp_all

/-- The balance written by the account recomputation depends only on fields
the recomputation never rewrites, so from the second application on the
row is a fixed point. -/
theorem gui_update_account_row_stable (revenue : List RevenueRec)
    (payments : List Payment) (a : Account) :
    gui_update_account_row revenue payments
        (gui_update_account_row revenue payments
          (gui_update_account_row revenue payments a))
      = gui_update_account_row revenue payments
          (gui_update_account_row revenue payments a) := by
  simp [gui_update_account_row]

/-- Outside of PreviousBalance, one and two applications of the account
recomputation agree. -/
theorem gui_update_account_row_erase_stable (revenue : List RevenueRec)
    (payments : List Payment) (a : Account) :
    erase_previous_balance
        (gui_update_account_row revenue payments
          (gui_update_account_row revenue payments a))
      = erase_previous_balance (gui_update_account_row revenue payments a) := by
  simp [gui_update_account_row, erase_previous_balance]

/-- Recomputing a goal row twice equals recomputing it once. -/
theorem db_update_goal_row_stable (payments : List Payment) (today : Int)
    (g : Goal) :
    db_update_goal_row payments today (db_update_goal_row payments today g)
      = db_update_goal_row payments today g := by
  simp only [db_update_goal_row]

/-- C6: the claim asserts bit-identical derived output from two runs on the
same ledger, including the previous-balance field; but each run first
copies the stored Balance into PreviousBalance, so on an account whose
stored balance 0 differs from its recomputed balance 1000 the first run
writes PreviousBalance 0 and the second run writes PreviousBalance 1000. -/
theorem C6_counterexample :
    ((full_recalc_pass 0 (full_recalc_pass 0
        ⟨[],
         [{ AccountID := 1, AccountType := "Checking", StartingBalance := 1000,
            Balance := 0, PreviousBalance := 0, Status := "Open" }],
         [], [], []⟩)).accounts.map
      Account.PreviousBalance) = [(1000 : ℚ)]
    ∧ ((full_recalc_pass 0
        ⟨[],
         [{ AccountID := 1, AccountType := "Checking", StartingBalance := 1000,
            Balance := 0, PreviousBalance := 0, Status := "Open" }],
         [], [], []⟩).accounts.map
      Account.PreviousBalance) = [(0 : ℚ)]
    ∧ ([(1000 : ℚ)] ≠ [(0 : ℚ)]) := by
  refine ⟨?_, ?_, by norm_num⟩ <;>
    norm_num [full_recalc_pass, gui_update_account_balances_and_debt_amounts,
      gui_update_account_row, gui_account_deposits, gui_account_withdrawals,
      db_update_goal_progress, List.filter]

/-- C6 amended: two runs of the recalculation pass on the same unchanged
ledger agree on every derived field except PreviousBalance, which records
the balance stored just before each run; and from the second run on the
whole pass output, PreviousBalance included, is a fixed point. -/
theorem C6_amended_idempotence :
    ∀ (today : Int) (s : LedgerState),
      (full_recalc_pass today (full_recalc_pass today s)).debts
        = (full_recalc_pass today s).debts
      ∧ (full_recalc_pass today (full_recalc_pass today s)).goals
        = (full_recalc_pass today s).goals
      ∧ ((full_recalc_pass today (full_recalc_pass today s)).accounts.map
          erase_previous_balance)
        = ((full_recalc_pass today s).accounts.map erase_previous_balance)
      ∧ full_recalc_pass today (full_recalc_pass today (full_recalc_pass today s))
        = full_recalc_pass today (full_recalc_pass today s) := by
  intro today s
  refine ⟨?_, ?_, ?_, ?_⟩ <;>
    simp [full_recalc_pass, gui_update_account_balances_and_debt_amounts,
      db_update_goal_progress, gui_update_debt_row_stable,
      db_update_goal_row_stable, gui_update_account_row_stable,
      gui_update_account_row_erase_stable]

/-- Every row of the db-manager report is one of the four yearly snapshots. -/
theorem mem_db_generate_financial_projection
    (debts sorted_debts : List Debt) (total_savings annual_income : ℚ)
    (s : Snapshot)
    (hs : s ∈ db_generate_financial_projection debts sorted_debts total_savings
        annual_income) :
    ∃ year : Nat,
      s = db_project_year (db_total_active_debt debts) total_savings
            annual_income sorted_debts year := by
  simp only [db_generate_financial_projection, List.foldl_cons, List.foldl_nil,
    List.nil_append, List.mem_append, List.mem_map] at hs
  rcases hs with ((⟨d, _, rfl⟩ | ⟨d, _, rfl⟩) | ⟨d, _, rfl⟩) | ⟨d, _, rfl⟩
  · exact ⟨3, rfl⟩
  · exact ⟨5, rfl⟩
  · exact ⟨7, rfl⟩
  · exact ⟨10, rfl⟩

/-- A snapshot appended by one GUI simulation month is appended with a
non-negative debt value, because the payment is the minimum of the debt
and the allocation; hence its debt field is clamped-equal to the raw debt
and its net worth equals savings minus the reported debt. -/
theorem gui_month_step_snapshots (available : ℚ) (m : Nat) (st : GuiProjState) :
    ∀ s ∈ (gui_month_step available m st).projections,
      s ∈ st.projections
        ∨ (0 ≤ s.DebtRemaining ∧ s.NetWorth = s.Savings - s.DebtRemaining) := by
  intro s hs
  have hd : 0 ≤ st.current_debt - min st.current_debt (available * st.debt_rate) :=
    sub_nonneg.mpr (min_le_left _ _)
  simp only [gui_month_step] at hs
  split at hs
  · split at hs <;>
    · simp only [List.mem_append, List.mem_singleton] at hs
      rcases hs with hs | rfl
      · exact Or.inl hs
      · refine Or.inr ⟨le_max_left _ _, ?_⟩
        simp [max_eq_right hd]
  · exact Or.inl hs

/-- Running any list of GUI simulation months preserves the snapshot
property of the previous lemma. -/
theorem gui_run_snapshots (available : ℚ) (l : List Nat) (st : GuiProjState)
    (h : ∀ s ∈ st.projections,
      0 ≤ s.DebtRemaining ∧ s.NetWorth = s.Savings - s.DebtRemaining) :
    ∀ s ∈ (l.foldl (fun st i => gui_month_step available (i + 1) st) st).projections,
      0 ≤ s.DebtRemaining ∧ s.NetWorth = s.Savings - s.DebtRemaining := by
  induction l generalizing st with
  | nil => exact h
  | cons i tl ih =>
    intro s hs
    refine ih (gui_month_step available (i + 1) st) ?_ s hs
    intro s2 hs2
    rcases gui_month_step_snapshots available (i + 1) st s2 hs2 with h1 | h2
    · exact h s2 h1
    · exact h2

/-- C7: in both projection engines every reported snapshot carries a
non-negative debt-remaining value, and its net worth equals its savings
minus that clamped value. In the db-manager engine the remaining debt is
clamped with max before the subtraction; in the GUI engine the debt value
at a year boundary is already non-negative, so the unclamped subtraction
used there coincides with savings minus the clamped value. -/
theorem C7_net_worth_clamped
    (debts sorted_debts : List Debt) (total_savings annual_income : ℚ)
    (gui_annual gui_next gui_total_debt gui_total_savings : ℚ)
    (s1 s2 : Snapshot)
    (h1 : s1 ∈ db_generate_financial_projection debts sorted_debts total_savings
        annual_income)
    (h2 : s2 ∈ gui_generate_financial_projection gui_annual gui_next
        gui_total_debt gui_total_savings) :
    (0 ≤ s1.DebtRemaining ∧ s1.NetWorth = s1.Savings - s1.DebtRemaining)
    ∧ (0 ≤ s2.DebtRemaining ∧ s2.NetWorth = s2.Savings - s2.DebtRemaining) := by
  constructor
  · obtain ⟨y, rfl⟩ :=
      mem_db_generate_financial_projection debts sorted_debts total_savings
        annual_income s1 h1
    exact ⟨le_max_left _ _, rfl⟩
  · simp only [gui_generate_financial_projection] at h2
    exact gui_run_snapshots _ _ _ (by simp) s2 h2

/-- Witness for C7 at concrete inputs: the year-3 snapshot of the db-manager
report over one active debt of 100 with minimum payment 10, and the year-1
snapshot of the GUI projection with monthly income 2000, initial debt one
million and initial savings -32535 (a fixed point of the savings update,
keeping every intermediate value small). -/
theorem C7_net_worth_clamped_witness :
    ((0 : ℚ) ≤ (⟨3, 0, 0, 0⟩ : Snapshot).DebtRemaining
      ∧ (⟨3, 0, 0, 0⟩ : Snapshot).NetWorth
          = (⟨3, 0, 0, 0⟩ : Snapshot).Savings
            - (⟨3, 0, 0, 0⟩ : Snapshot).DebtRemaining)
    ∧ ((0 : ℚ) ≤ (⟨1, 996760, -32535, -1029295⟩ : Snapshot).DebtRemaining
      ∧ (⟨1, 996760, -32535, -1029295⟩ : Snapshot).NetWorth
          = (⟨1, 996760, -32535, -1029295⟩ : Snapshot).Savings
            - (⟨1, 996760, -32535, -1029295⟩ : Snapshot).DebtRemaining) :=
  C7_net_worth_clamped
    [{ DebtID := 1, OriginalAmount := 100, Amount := 100, AmountPaid := 0,
       MinimumPayment := some 10, SnowballPayment := some 0,
       InterestRate := some 0, Status := "Open" }]
    [{ DebtID := 1, OriginalAmount := 100, Amount := 100, AmountPaid := 0,
       MinimumPayment := some 10, SnowballPayment := some 0,
       InterestRate := some 0, Status := "Open" }]
    0 0 24000 0 1000000 (-32535) ⟨3, 0, 0, 0⟩ ⟨1, 996760, -32535, -1029295⟩
    (by
      have hact : db_is_active_debt
          { DebtID := 1, OriginalAmount := 100, Amount := 100, AmountPaid := 0,
            MinimumPayment := some 10, SnowballPayment := some 0,
            InterestRate := some 0, Status := "Open" } = true := by decide
      norm_num [db_generate_financial_projection, db_total_active_debt,
        db_project_year, db_snowball_step, List.filter_cons, hact,
        min_def, max_def])
    (by norm_num [gui_generate_financial_projection, gui_monthly_income,
      gui_month_step, List.range_succ, min_def, max_def])

/-- C4: the claim asserts that the projection simulates month by month,
multiplying the head debt by 1 plus annualRate over 12 over 100 before each
payment; on one debt of amount 1000 at annual rate 1200 percent with
minimum payment 10 the code reports 640 remaining for the 3-year horizon,
while the claimed monthly accrual leaves 990 times 2 to the 36 plus 10
after 36 months, so the code does not perform the claimed monthly
interest-then-payment simulation. -/
theorem C4_counterexample :
    ((db_generate_financial_projection
        [{ DebtID := 1, OriginalAmount := 1000, Amount := 1000, AmountPaid := 0,
           MinimumPayment := some 10, SnowballPayment := some 0,
           InterestRate := some 1200, Status := "Open" }]
        [{ DebtID := 1, OriginalAmount := 1000, Amount := 1000, AmountPaid := 0,
           MinimumPayment := some 10, SnowballPayment := some 0,
           InterestRate := some 1200, Status := "Open" }] 0 0).getD 0
      default).DebtRemaining = 640
    ∧ spec_total_remaining (spec_simulate 36
        (0, [{ remaining := 1000, annualRate := 1200, minimumPayment := 10 }]))
      = 990 * 2 ^ 36 + 10
    ∧ (640 : ℚ) ≠ 990 * 2 ^ 36 + 10 := by
  refine ⟨?_, ?_, by norm_num⟩
  · have hact : db_is_active_debt
        { DebtID := 1, OriginalAmount := 1000, Amount := 1000, AmountPaid := 0,
          MinimumPayment := some 10, SnowballPayment := some 0,
          InterestRate := some 1200, Status := "Open" } = true := by decide
    norm_num [db_generate_financial_projection, db_total_active_debt,
      db_project_year, db_snowball_step, List.filter_cons, hact,
      min_def, max_def]
  · norm_num [spec_simulate, spec_month_step, spec_total_remaining, max_def]

/-- C4 amended: the projection performs no monthly simulation and no
interest accrual at all: the InterestRate column never influences the
output, and each horizon is collapsed into paying each debt the minimum of
its amount and its monthly payment times the number of months; on the
example debts A of 500 with minimum 50 and B of 2000 with minimum 100
every reported snapshot of every horizon shows 0 debt remaining. -/
theorem C4_amended_no_monthly_interest :
    (∀ (debts sorted_debts : List Debt) (total_savings annual_income : ℚ)
        (r : Option ℚ),
      db_generate_financial_projection (debts.map (debt_with_interest_rate r))
          (sorted_debts.map (debt_with_interest_rate r)) total_savings
          annual_income
        = db_generate_financial_projection debts sorted_debts total_savings
            annual_income)
    ∧ (db_generate_financial_projection
        [{ DebtID := 1, OriginalAmount := 500, Amount := 500, AmountPaid := 0,
           MinimumPayment := some 50, SnowballPayment := some 0,
           InterestRate := some 0, Status := "Open" },
         { DebtID := 2, OriginalAmount := 2000, Amount := 2000, AmountPaid := 0,
           MinimumPayment := some 100, SnowballPayment := some 0,
           InterestRate := some 0, Status := "Open" }]
        [{ DebtID := 1, OriginalAmount := 500, Amount := 500, AmountPaid := 0,
           MinimumPayment := some 50, SnowballPayment := some 0,
           InterestRate := some 0, Status := "Open" },
         { DebtID := 2, OriginalAmount := 2000, Amount := 2000, AmountPaid := 0,
           MinimumPayment := some 100, SnowballPayment := some 0,
           InterestRate := some 0, Status := "Open" }] 0 0).map
        Snapshot.DebtRemaining = [0, 0, 0, 0, 0, 0, 0, 0] := by
  constructor
  · intro debts sorted_debts total_savings annual_income r
    have hAmt : ∀ d, (debt_with_interest_rate r d).Amount = d.Amount :=
      fun _ => rfl
    have hact : ∀ d, db_is_active_debt (debt_with_interest_rate r d)
        = db_is_active_debt d := fun _ => rfl
    have htot : ∀ (l : List Debt),
        db_total_active_debt (l.map (debt_with_interest_rate r))
          = db_total_active_debt l := by
      intro l
      induction l with
      | nil => rfl
      | cons d tl ih =>
        simp only [db_total_active_debt] at ih ⊢
        simp only [List.map_cons, List.filter_cons, hact]
        by_cases h : db_is_active_debt d = true <;> simp [h, ih, hAmt]
    have hfold : ∀ (months : ℚ) (l : List Debt) (st : ℚ × ℚ),
        (l.map (debt_with_interest_rate r)).foldl (db_snowball_step months) st
          = l.foldl (db_snowball_step months) st := by
      intro months l
      induction l with
      | nil => exact fun _ => rfl
      | cons d tl ih =>
        intro st
        simp only [List.map_cons, List.foldl_cons]
        exact ih _
    have hproj : ∀ (td ts ai : ℚ) (y : Nat),
        db_project_year td ts ai (sorted_debts.map (debt_with_interest_rate r)) y
          = db_project_year td ts ai sorted_debts y := by
      intro td ts ai y
      simp only [db_project_year, hfold]
    simp [db_generate_financial_projection, htot, hproj, List.map_map,
      Function.comp_def, List.map_const, List.length_map]
  · have hactA : db_is_active_debt
        { DebtID := 1, OriginalAmount := 500, Amount := 500, AmountPaid := 0,
          MinimumPayment := some 50, SnowballPayment := some 0,
          InterestRate := some 0, Status := "Open" } = true := by decide
    have hactB : db_is_active_debt
        { DebtID := 2, OriginalAmount := 2000, Amount := 2000, AmountPaid := 0,
          MinimumPayment := some 100, SnowballPayment := some 0,
          InterestRate := some 0, Status := "Open" } = true := by decide
    norm_num [db_generate_financial_projection, db_total_active_debt,
      db_project_year, db_snowball_step, List.filter_cons, hactA, hactB,
      min_def, max_def]

end DebtTracker
